import Mathlib

/-!
Shallow embedding of the core of the video-stream repository:

* `client/src/lib/VideoSyncManager.ts` — the Sync Controller: a manager that
  holds a list of registered video handles, a master (reference) index, and on
  every poll tick classifies each non-reference stream's drift against two
  thresholds, applying a direct seek, a playback-rate nudge, or nothing.
* `server/ffmpeg-manager.ts` — the Process Supervisor: stream descriptors with
  staggered delays, spawn/stop/exit/error handling and the restart policy.
* the ffmpeg-backed routes variant — the restart-all HTTP command.

Numeric positions and rates are embedded as exact rationals (the source uses
JS numbers; all constants involved — 0.5, 1.5, 0.98, 1.02, 0.3-step delays —
are exact in this model and the claims are about order comparisons, which the
rational embedding preserves). Timers (`setTimeout`) are embedded as explicit
scheduled-action data returned by the operation that would install them.
-/

namespace VideoStream

/-- `Math.abs` on rationals, as the source uses it on `drift`. -/
def absQ (q : ℚ) : ℚ := if q < 0 then -q else q

/-- One registered video handle, as the Sync Controller sees it: the
`HTMLVideoElement` fields it reads or writes (`currentTime`, `paused`,
`playbackRate`, whether a `play()` call on it would resolve or be rejected by
the autoplay policy) together with the `streamId` stored at registration. -/
structure Video where
  currentTime : ℚ
  paused : Bool
  playbackRate : ℚ
  playSucceeds : Bool
  streamId : ℕ
deriving Repr, DecidableEq

/-- `SyncState` of VideoSyncManager.ts: one tick's sample for one stream. -/
structure SyncState where
  streamId : ℕ
  currentTime : ℚ
  drift : ℚ
  isSynced : Bool
deriving Repr, DecidableEq

/-- `MINOR_DRIFT_THRESHOLD = 0.5` seconds. -/
def MINOR_DRIFT_THRESHOLD : ℚ := 1/2

/-- `MAJOR_DRIFT_THRESHOLD = 1.5` seconds. -/
def MAJOR_DRIFT_THRESHOLD : ℚ := 3/2

/-- The sync-controller state: registered videos and the master index. -/
structure VideoSyncManager where
  videos : List Video
  masterIndex : ℕ
deriving Repr, DecidableEq

/-- Index-passing map, used to embed `this.videos.forEach((v, index) => ...)`
and `this.videos.map((v, index) => ...)`. -/
def mapWithIndex (f : ℕ → α → β) : ℕ → List α → List β
  | _, [] => []
  | k, a :: as => f k a :: mapWithIndex f (k + 1) as

/-- The body of the `forEach` in `VideoSyncManager.sync` for the element at
index `i`: returns the updated video, the pushed `SyncState`, and whether a
500ms rate-reset timeout was installed for this video. The master index is
skipped (drift 0, synced); otherwise drift is classified against the major
and minor thresholds with strict `>`. In the major branch, the state's
`currentTime` is read after the seek assignment, so it equals the master
time. -/
def syncStep (masterIdx : ℕ) (masterTime : ℚ) (i : ℕ) (v : Video) :
    Video × SyncState × Bool :=
  if i = masterIdx then
    (v, { streamId := v.streamId, currentTime := v.currentTime,
          drift := 0, isSynced := true }, false)
  else
    let drift := v.currentTime - masterTime
    let absDrift := absQ drift
    if absDrift > MAJOR_DRIFT_THRESHOLD then
      ({ v with currentTime := masterTime },
       { streamId := v.streamId, currentTime := masterTime,
         drift := drift, isSynced := false }, false)
    else if absDrift > MINOR_DRIFT_THRESHOLD then
      ({ v with playbackRate := if drift > 0 then 98/100 else 102/100 },
       { streamId := v.streamId, currentTime := v.currentTime,
         drift := drift, isSynced := false }, true)
    else
      ({ v with playbackRate := 1 },
       { streamId := v.streamId, currentTime := v.currentTime,
         drift := drift, isSynced := true }, false)

/-- `VideoSyncManager.sync()`: one poll tick. Returns the manager with the
updated videos, the list of `SyncState`s handed to `onSyncUpdate`, and the
per-index flags recording which videos had a 500ms rate-reset scheduled.
Early-returns (empty list, master index out of range) leave everything
unchanged and produce no states. -/
def VideoSyncManager.sync (m : VideoSyncManager) :
    VideoSyncManager × List SyncState × List Bool :=
  match m.videos[m.masterIndex]? with
  | none => (m, [], [])
  | some master =>
    let results := mapWithIndex (fun i v => syncStep m.masterIndex master.currentTime i v) 0 m.videos
    ({ m with videos := results.map (fun r => r.1) },
     results.map (fun r => r.2.1),
     results.map (fun r => r.2.2))

/-- Firing of the 500ms correction-window timeout installed by the nudge
branch: `video.playbackRate = 1.0` on the captured video (index `i`). -/
def VideoSyncManager.applyRateReset (m : VideoSyncManager) (i : ℕ) : VideoSyncManager :=
  match m.videos[i]? with
  | none => m
  | some v => { m with videos := m.videos.set i { v with playbackRate := 1 } }

/-- `VideoSyncManager.setMaster(index)`: bounds-checked, no-op out of range. -/
def VideoSyncManager.setMaster (m : VideoSyncManager) (index : ℕ) : VideoSyncManager :=
  if index < m.videos.length then { m with masterIndex := index } else m

/-- `VideoSyncManager.forceSync()`: seeks every non-master video to the
master's current time and resets its rate to 1.0, unconditionally, then runs
one `sync()` pass. Play/pause state is never touched. -/
def VideoSyncManager.forceSync (m : VideoSyncManager) :
    VideoSyncManager × List SyncState × List Bool :=
  match m.videos[m.masterIndex]? with
  | none => (m, [], [])
  | some master =>
    let seeked := { m with videos := mapWithIndex (fun i v =>
      if i = m.masterIndex then v
      else { v with currentTime := master.currentTime, playbackRate := 1 }) 0 m.videos }
    seeked.sync

/-- `VideoSyncManager.getSyncStates()`: pure snapshot; drift is 0 at the
master index, and `isSynced` is `absDrift < MINOR_DRIFT_THRESHOLD` (strict
`<`, unlike the tick's strict `>`). -/
def VideoSyncManager.getSyncStates (m : VideoSyncManager) : List SyncState :=
  match m.videos[m.masterIndex]? with
  | none => []
  | some master =>
    mapWithIndex (fun i v =>
      let drift : ℚ := if i = m.masterIndex then 0 else v.currentTime - master.currentTime
      { streamId := v.streamId, currentTime := v.currentTime, drift := drift,
        isSynced := decide (absQ drift < MINOR_DRIFT_THRESHOLD) }) 0 m.videos

/-- `video.play()`: resolves (clearing `paused`) or rejects (autoplay policy,
state unchanged), per the handle's `playSucceeds`. -/
def Video.play (v : Video) : Video × Except Unit Unit :=
  if v.playSucceeds then ({ v with paused := false }, Except.ok ())
  else (v, Except.error ())

/-- `video.play().catch(() => {})`: the rejection is swallowed, so the settled
outcome is always a resolution. -/
def caughtPlay (v : Video) : Video × Except Unit Unit :=
  ((v.play).1, Except.ok ())

/-- `Promise.all`: rejects as soon as any member promise rejects, resolves if
all resolve. -/
def promiseAll : List (Except Unit Unit) → Except Unit Unit
  | [] => Except.ok ()
  | Except.error e :: _ => Except.error e
  | Except.ok _ :: rest => promiseAll rest

/-- `VideoSyncManager.playAll()`: maps `play().catch(ignore)` over all
registered videos and awaits `Promise.all` of the results. -/
def VideoSyncManager.playAll (m : VideoSyncManager) :
    VideoSyncManager × Except Unit Unit :=
  let results := m.videos.map caughtPlay
  ({ m with videos := results.map (fun r => r.1) },
   promiseAll (results.map (fun r => r.2)))

/-- `video.pause()` as used by `pauseAll`. -/
def Video.pause (v : Video) : Video := { v with paused := true }

/-- `VideoSyncManager.pauseAll()`: fire-and-forget pause on every video. -/
def VideoSyncManager.pauseAll (m : VideoSyncManager) : VideoSyncManager :=
  { m with videos := m.videos.map Video.pause }

/-! ## Process Supervisor — `server/ffmpeg-manager.ts` -/

/-- `StreamProcess` of ffmpeg-manager.ts. The `ChildProcess | null` field is
embedded as an opaque token (`Option ℕ`): the supervisor only stores it,
kills it, and compares it against null. -/
structure StreamProcess where
  id : ℕ
  name : String
  process : Option ℕ
  url : String
  delay : ℚ
  isRunning : Bool
  lastError : Option String
deriving Repr, DecidableEq

/-- `NUM_STREAMS = 6`. -/
def NUM_STREAMS : ℕ := 6

/-- The staggered delays `[0, 0.3, 0.6, 0.9, 1.2, 1.5]` seconds. -/
def streamDelays : List ℚ := [0, 3/10, 6/10, 9/10, 12/10, 15/10]

/-- `initializeStreams()`: the six descriptors built in the constructor. -/
def initializeStreams : List StreamProcess :=
  (List.range NUM_STREAMS).map (fun i =>
    { id := i + 1,
      name := "Stream " ++ toString (i + 1),
      process := none,
      url := "/streams/stream" ++ toString (i + 1) ++ "/playlist.m3u8",
      delay := streamDelays.getD i 0,
      isRunning := false,
      lastError := none })

/-- The observable part of one `spawn('ffmpeg', args)` call issued by
`startStream`: which stream it is for, and the `-itsoffset` input-side time
offset spliced into the argument list — present with value `delay` exactly
when `delay > 0`, absent otherwise. -/
structure SpawnCall where
  streamId : ℕ
  itsoffset : Option ℚ
deriving Repr, DecidableEq

/-- The effective input-side time offset of a spawn: the `-itsoffset` value
when the flag is present, otherwise 0. -/
def SpawnCall.inputOffset (c : SpawnCall) : ℚ := c.itsoffset.getD 0

/-- `startStream(stream)`: stores a fresh process handle, marks the stream
running, and issues the spawn (with `-itsoffset delay` spliced in iff
`delay > 0`). The fresh `ChildProcess` token is keyed by the stream id. -/
def startStream (s : StreamProcess) : StreamProcess × SpawnCall :=
  ({ s with process := some s.id, isRunning := true },
   { streamId := s.id, itsoffset := if s.delay > 0 then some s.delay else none })

/-- Events observable from `startAll()`: a spawn issuance, or an awaited
settle delay (`setTimeout(resolve, 500)`). -/
inductive SupervisorEvent where
  | spawn (c : SpawnCall)
  | settle (ms : ℕ)
deriving Repr, DecidableEq

/-- The fixed settle delay between successive spawns in `startAll` (ms). -/
def SETTLE_DELAY_MS : ℕ := 500

/-- `startAll()`: for each stream in list (= ascending id) order, awaits
`startStream` and then a 500ms settle delay; returns once the loop ends —
nothing in it waits for health. The event trace records the issued spawns
and awaited delays in order. -/
def startAll (streams : List StreamProcess) :
    List StreamProcess × List SupervisorEvent :=
  match streams with
  | [] => ([], [])
  | s :: rest =>
    let r := startStream s
    let next := startAll rest
    (r.1 :: next.1,
     SupervisorEvent.spawn r.2 :: SupervisorEvent.settle SETTLE_DELAY_MS :: next.2)

/-- The spawn calls in a supervisor event trace, in order. -/
def spawnsOf (evts : List SupervisorEvent) : List SpawnCall :=
  evts.filterMap (fun e => match e with
    | SupervisorEvent.spawn c => some c
    | SupervisorEvent.settle _ => none)

/-- The restart cool-down in the exit handler (`setTimeout(..., 3000)`). -/
def RESTART_COOLDOWN_MS : ℕ := 3000

/-- The exit handler's restart predicate: `code !== 0 && code !== null`.
A process terminated by a signal reports `code = null`. -/
def shouldRestart (code : Option ℤ) : Bool :=
  match code with
  | some c => decide (c ≠ 0)
  | none => false

/-- The `ffmpegProcess.on('exit', ...)` handler installed by `startStream`:
marks the stream not running and, iff the exit code is non-zero and
non-null, schedules `startStream` on the same stream record after the 3s
cool-down. The second component is the delay of the scheduled restart,
`none` when no restart is scheduled. -/
def onExit (s : StreamProcess) (code : Option ℤ) : StreamProcess × Option ℕ :=
  ({ s with isRunning := false },
   if shouldRestart code then some RESTART_COOLDOWN_MS else none)

/-- The `ffmpegProcess.on('error', ...)` handler: records the message as
`lastError`, marks not running; its body schedules nothing, so the restart
component is always `none`. -/
def onError (s : StreamProcess) (msg : String) : StreamProcess × Option ℕ :=
  ({ s with isRunning := false, lastError := some msg }, none)

/-- One stream's share of `stopAll()`: if the handle holds a process,
`kill('SIGTERM')` is sent and the stream is marked not running; the stored
process reference itself is left as it was (the source never nulls it).
The second component is the signal sent, if any. -/
def stopOne (s : StreamProcess) : StreamProcess × Option String :=
  if s.process.isSome then ({ s with isRunning := false }, some "SIGTERM")
  else (s, none)

/-- `stopAll()`: applies `stopOne` to every stream; also returns the
`(streamId, signal)` kills issued. Does not wait for process exit. -/
def stopAll (streams : List StreamProcess) :
    List StreamProcess × List (ℕ × String) :=
  (streams.map (fun s => (stopOne s).1),
   (streams.filter (fun s => s.process.isSome)).map (fun s => (s.id, "SIGTERM")))

/-- One entry of `getStreamHealth()` (the `lastUpdate` wall-clock timestamp
is omitted: it is read from the ambient clock and carries no state). -/
structure StreamHealth where
  streamId : ℕ
  isLive : Bool
  error : Option String
deriving Repr, DecidableEq

/-- `getStreamHealth()`: pure per-stream snapshot of `isRunning`/`lastError`. -/
def getStreamHealth (streams : List StreamProcess) : List StreamHealth :=
  streams.map (fun s =>
    { streamId := s.id, isLive := s.isRunning, error := s.lastError })

/-! ## Restart-all route — ffmpeg-backed routes variant -/

/-- The response sent by the restart route: HTTP status and the `success`
flag of the JSON body. -/
structure RestartResponse where
  status : ℕ
  success : Bool
deriving Repr, DecidableEq

/-- Steps the restart route handler performs, in order. -/
inductive RouteEvent where
  | stopAllCall
  | waitMs (ms : ℕ)
  | startAllCall
deriving Repr, DecidableEq

/-- The settle period awaited between `stopAll()` and `startAll()` (ms). -/
def RESTART_SETTLE_MS : ℕ := 2000

/-- `app.post('/api/streams/restart')` of the ffmpeg-backed routes variant:
503 when the manager is not initialized; otherwise `try { stopAll();
await 2s; await startAll(); 200 success } catch { 500 }`. The two `Except`
arguments give the outcome of the `stopAll()` and `startAll()` calls, so the
catch-path is taken exactly when one of them throws. -/
def restartRoute (managerInitialized : Bool)
    (stopAllResult startAllResult : Except String Unit) :
    List RouteEvent × RestartResponse :=
  if managerInitialized then
    match stopAllResult with
    | Except.error _ =>
      ([RouteEvent.stopAllCall], { status := 500, success := false })
    | Except.ok _ =>
      match startAllResult with
      | Except.error _ =>
        ([RouteEvent.stopAllCall, RouteEvent.waitMs RESTART_SETTLE_MS,
          RouteEvent.startAllCall],
         { status := 500, success := false })
      | Except.ok _ =>
        ([RouteEvent.stopAllCall, RouteEvent.waitMs RESTART_SETTLE_MS,
          RouteEvent.startAllCall],
         { status := 200, success := true })
  else ([], { status := 503, success := false })

/-- `app.post('/api/streams/restart')` of `server/routes.ts` (the public-HLS
serving variant shipped as the named routes file, matching the README):
responds `{ success: true, message: 'Streams are using public HLS sources -
no restart needed' }` immediately; it calls neither `stopAll` nor
`startAll` and awaits nothing. -/
def stubRestartRoute : List RouteEvent × RestartResponse :=
  ([], { status := 200, success := true })

/-- A concrete live stream handle, as `startStream` leaves one: process
reference stored, marked running. -/
def sampleHandle : StreamProcess :=
  { id := 1, name := "Stream 1", process := some 7,
    url := "/streams/stream1/playlist.m3u8", delay := 0,
    isRunning := true, lastError := none }

/-- A concrete video handle at position `t` whose `play()` resolves. -/
def vidAt (t : ℚ) (sid : ℕ) : Video :=
  { currentTime := t, paused := false, playbackRate := 1,
    playSucceeds := true, streamId := sid }

/-- A concrete paused video handle at position `t` whose `play()` is
rejected by the autoplay policy. -/
def vidRejecting (t : ℚ) (sid : ℕ) : Video :=
  { currentTime := t, paused := true, playbackRate := 1,
    playSucceeds := false, streamId := sid }

/-- A two-video controller whose non-reference stream is 2s ahead of the
reference (above the major threshold). -/
def mMajor : VideoSyncManager :=
  { videos := [vidAt 10 1, vidAt 12 2], masterIndex := 0 }

/-- A two-video controller whose non-reference stream sits exactly at the
minor threshold: drift 0.5s. -/
def mBoundary : VideoSyncManager :=
  { videos := [vidAt 10 1, vidAt (21/2) 2], masterIndex := 0 }

/-- A two-video controller where the second video's `play()` rejects. -/
def mMixed : VideoSyncManager :=
  { videos := [vidAt 10 1, vidRejecting 10 2], masterIndex := 0 }

/-! ## Helper lemmas -/

theorem mapWithIndex_getElem? (f : ℕ → α → β) (k i : ℕ) (l : List α) :
    (mapWithIndex f k l)[i]? = (l[i]?).map (f (k + i)) := by
  induction l generalizing k i with
  | nil => simp [mapWithIndex]
  | cons a as ih =>
    cases i with
    | zero => simp [mapWithIndex]
    | succ n =>
      simp only [mapWithIndex, List.getElem?_cons_succ, ih (k + 1) n]
      have h : k + 1 + n = k + (n + 1) := by omega
      rw [h]

theorem mapWithIndex_length (f : ℕ → α → β) (k : ℕ) (l : List α) :
    (mapWithIndex f k l).length = l.length := by
  induction l generalizing k with
  | nil => rfl
  | cons a as ih => simp [mapWithIndex, ih]


theorem sync_videos_getElem? (m : VideoSyncManager) (master : Video)
    (hm : m.videos[m.masterIndex]? = some master) (i : ℕ) :
    (m.sync).1.videos[i]? =
      (m.videos[i]?).map (fun v => (syncStep m.masterIndex master.currentTime i v).1) := by
  unfold VideoSyncManager.sync
  rw [hm]
  simp [mapWithIndex_getElem?, Function.comp_def]

theorem sync_states_getElem? (m : VideoSyncManager) (master : Video)
    (hm : m.videos[m.masterIndex]? = some master) (i : ℕ) :
    (m.sync).2.1[i]? =
      (m.videos[i]?).map (fun v => (syncStep m.masterIndex master.currentTime i v).2.1) := by
  unfold VideoSyncManager.sync
  rw [hm]
  simp [mapWithIndex_getElem?, Function.comp_def]

theorem sync_resets_getElem? (m : VideoSyncManager) (master : Video)
    (hm : m.videos[m.masterIndex]? = some master) (i : ℕ) :
    (m.sync).2.2[i]? =
      (m.videos[i]?).map (fun v => (syncStep m.masterIndex master.currentTime i v).2.2) := by
  unfold VideoSyncManager.sync
  rw [hm]
  simp [mapWithIndex_getElem?, Function.comp_def]

theorem getSyncStates_getElem? (m : VideoSyncManager) (master : Video)
    (hm : m.videos[m.masterIndex]? = some master) (i : ℕ) :
    m.getSyncStates[i]? =
      (m.videos[i]?).map (fun v =>
        let drift : ℚ := if i = m.masterIndex then 0 else v.currentTime - master.currentTime
        { streamId := v.streamId, currentTime := v.currentTime, drift := drift,
          isSynced := decide (absQ drift < MINOR_DRIFT_THRESHOLD) }) := by
  unfold VideoSyncManager.getSyncStates
  rw [hm]
  simp [mapWithIndex_getElem?]

theorem forceSync_eq (m : VideoSyncManager) (master : Video)
    (hm : m.videos[m.masterIndex]? = some master) :
    m.forceSync = VideoSyncManager.sync
      { m with videos := mapWithIndex (fun i v =>
          if i = m.masterIndex then v
          else { v with currentTime := master.currentTime,
                        playbackRate := 1 }) 0 m.videos } := by
  unfold VideoSyncManager.forceSync
  rw [hm]

theorem absQ_nonneg (q : ℚ) : 0 ≤ absQ q := by
  unfold absQ
  split <;> linarith

theorem forceSync_videos_getElem? (m : VideoSyncManager) (master : Video)
    (hm : m.videos[m.masterIndex]? = some master) (i : ℕ) :
    (m.forceSync).1.videos[i]? = (m.videos[i]?).map (fun v =>
      (syncStep m.masterIndex master.currentTime i
        (if i = m.masterIndex then v
         else { v with currentTime := master.currentTime,
                       playbackRate := 1 })).1) := by
  rw [forceSync_eq m master hm]
  have hm2 : (mapWithIndex (fun i v =>
      if i = m.masterIndex then v
      else { v with currentTime := master.currentTime,
                    playbackRate := 1 }) 0 m.videos)[m.masterIndex]? = some master := by
    rw [mapWithIndex_getElem?]
    simp [hm]
  rw [sync_videos_getElem? _ master hm2 i]
  simp [mapWithIndex_getElem?, Option.map_map, Function.comp_def]

theorem forceSync_states_getElem? (m : VideoSyncManager) (master : Video)
    (hm : m.videos[m.masterIndex]? = some master) (i : ℕ) :
    (m.forceSync).2.1[i]? = (m.videos[i]?).map (fun v =>
      (syncStep m.masterIndex master.currentTime i
        (if i = m.masterIndex then v
         else { v with currentTime := master.currentTime,
                       playbackRate := 1 })).2.1) := by
  rw [forceSync_eq m master hm]
  have hm2 : (mapWithIndex (fun i v =>
      if i = m.masterIndex then v
      else { v with currentTime := master.currentTime,
                    playbackRate := 1 }) 0 m.videos)[m.masterIndex]? = some master := by
    rw [mapWithIndex_getElem?]
    simp [hm]
  rw [sync_states_getElem? _ master hm2 i]
  simp [mapWithIndex_getElem?, Option.map_map, Function.comp_def]

theorem promiseAll_ok_of_all_ok (l : List (Except Unit Unit))
    (h : ∀ r ∈ l, r = Except.ok ()) : promiseAll l = Except.ok () := by
  induction l with
  | nil => rfl
  | cons a rest ih =>
    have ha := h a (List.mem_cons_self a rest)
    subst ha
    exact ih (fun r hr => h r (List.mem_cons_of_mem _ hr))

/-! ## Claims -/

/-- C2: an automatic restart (re-spawn of the same stream record after the
3000ms cool-down) is scheduled by the exit handler iff the exit code is
non-zero and non-null; the exit handler otherwise only clears `isRunning`;
the error handler records `lastError`, clears `isRunning`, and never
schedules a restart; in particular exit code 0 and a signal-caused null code
schedule nothing. -/
theorem c2_restart_policy (s : StreamProcess) (code : Option ℤ) (msg : String) :
    ((onExit s code).2 = some RESTART_COOLDOWN_MS ↔ ∃ c, code = some c ∧ c ≠ 0) ∧
    ((onExit s code).1 = { s with isRunning := false }) ∧
    (onError s msg = ({ s with isRunning := false, lastError := some msg }, none)) ∧
    ((onExit s (some 0)).2 = none) ∧
    ((onExit s none).2 = none) := by
  refine ⟨?_, rfl, rfl, by simp [onExit, shouldRestart], by simp [onExit, shouldRestart]⟩
  cases code with
  | none => simp [onExit, shouldRestart]
  | some c =>
    by_cases hc : c = 0
    · subst hc; simp [onExit, shouldRestart]
    · simp [onExit, shouldRestart, hc]

/-- C4: `startAll` on the initialized streams issues exactly `NUM_STREAMS = 6`
spawns, in ascending id order 1..6, with effective input-side offsets
0, 0.3, 0.6, 0.9, 1.2, 1.5 seconds (the `-itsoffset` flag is spliced in
exactly for the positive delays), and the full event trace awaits a 500ms
settle delay after each spawn, so successive spawns are separated by one. -/
theorem c4_startAll_schedule :
    ((startAll initializeStreams).2 =
      [SupervisorEvent.spawn { streamId := 1, itsoffset := none },
       SupervisorEvent.settle 500,
       SupervisorEvent.spawn { streamId := 2, itsoffset := some (3/10) },
       SupervisorEvent.settle 500,
       SupervisorEvent.spawn { streamId := 3, itsoffset := some (6/10) },
       SupervisorEvent.settle 500,
       SupervisorEvent.spawn { streamId := 4, itsoffset := some (9/10) },
       SupervisorEvent.settle 500,
       SupervisorEvent.spawn { streamId := 5, itsoffset := some (12/10) },
       SupervisorEvent.settle 500,
       SupervisorEvent.spawn { streamId := 6, itsoffset := some (15/10) },
       SupervisorEvent.settle 500]) ∧
    ((spawnsOf (startAll initializeStreams).2).length = NUM_STREAMS) ∧
    ((spawnsOf (startAll initializeStreams).2).map (fun c => c.streamId) =
      [1, 2, 3, 4, 5, 6]) ∧
    ((spawnsOf (startAll initializeStreams).2).map SpawnCall.inputOffset =
      [0, 3/10, 6/10, 9/10, 12/10, 15/10]) := by
  refine ⟨?_, ?_, ?_, ?_⟩ <;>
    simp [startAll, initializeStreams, startStream, NUM_STREAMS, streamDelays,
      spawnsOf, SpawnCall.inputOffset, SETTLE_DELAY_MS, List.range_succ]

/-- C5: provided every running handle holds a live process reference (which
is how `startStream` always leaves a handle), every stream reports
`running = false` in the health snapshot taken right after `stopAll`; and a
termination whose exit event carries a null code — as a `SIGTERM`-killed
process reports — never schedules a restart in the exit handler. -/
theorem c5_stopAll_no_restart (streams : List StreamProcess)
    (hinv : ∀ s ∈ streams, s.isRunning = true → s.process.isSome) :
    (∀ h2 ∈ getStreamHealth (stopAll streams).1, h2.isLive = false) ∧
    (∀ s : StreamProcess, (onExit s none).2 = none) := by
  constructor
  · intro h2 hh2
    simp only [getStreamHealth, stopAll, List.map_map, List.mem_map] at hh2
    obtain ⟨s, hs, rfl⟩ := hh2
    simp only [Function.comp_def, stopOne]
    by_cases hp : s.process.isSome
    · simp [hp]
    · cases hr : s.isRunning
      · simp [hp, hr]
      · exact absurd (hinv s hs hr) hp
  · intro s
    simp [onExit, shouldRestart]

/-- C5 witness: a two-stream pool, one live and one never started. -/
theorem c5_stopAll_no_restart_witness :
    (∀ h2 ∈ getStreamHealth (stopAll
        [{ id := 1, name := "Stream 1", process := some 1, url := "u1",
           delay := 0, isRunning := true, lastError := none },
         { id := 2, name := "Stream 2", process := none, url := "u2",
           delay := 0, isRunning := false, lastError := none }]).1,
       h2.isLive = false) ∧
    (∀ s : StreamProcess, (onExit s none).2 = none) :=
  c5_stopAll_no_restart _ (by intro s hs hr; fin_cases hs <;> simp_all)

/-- C9 counterexample: a single handle with a live process reference; after
`stopAll` the stored reference is still the same non-null token, so it is
not "set to null" as the claim states. -/
theorem c9_counterexample :
    ((stopAll [sampleHandle]).1.map (fun s => s.process) = [some 7]) ∧
    some 7 ≠ (none : Option ℕ) := by
  exact ⟨rfl, by simp⟩

/-- C9 amended: after `stopAll`, each handle that held a live process has
been sent `SIGTERM` and is marked not running, but its stored process
reference is unchanged — `stopAll` never nulls it. -/
theorem c9_stop_keeps_process_ref (streams : List StreamProcess) (i : ℕ)
    (s : StreamProcess) (hs : streams[i]? = some s) :
    ∃ s2, (stopAll streams).1[i]? = some s2 ∧ s2.process = s.process ∧
      (s.process.isSome = true →
        s2.isRunning = false ∧ (s.id, "SIGTERM") ∈ (stopAll streams).2) := by
  refine ⟨(stopOne s).1, ?_, ?_, ?_⟩
  · simp [stopAll, hs]
  · unfold stopOne
    by_cases hp : s.process.isSome <;> simp [hp]
  · intro hp
    constructor
    · simp [stopOne, hp]
    · have hmem : s ∈ streams := by
        have := List.getElem?_eq_some_iff.mp hs
        obtain ⟨hlen, hget⟩ := this
        exact hget ▸ List.getElem_mem hlen
      simp only [stopAll, List.mem_map]
      exact ⟨s, List.mem_filter.mpr ⟨hmem, by simp [hp]⟩, rfl⟩

/-- C9 amended witness: the same single-handle pool as the counterexample. -/
theorem c9_stop_keeps_process_ref_witness :
    ∃ s2, (stopAll [sampleHandle]).1[0]? = some s2 ∧
      s2.process = sampleHandle.process ∧
      (sampleHandle.process.isSome = true →
        s2.isRunning = false ∧
        (sampleHandle.id, "SIGTERM") ∈ (stopAll [sampleHandle]).2) :=
  c9_stop_keeps_process_ref [sampleHandle] 0 sampleHandle rfl

/-- C8 counterexample: the restart endpoint of the shipped serving layer
(`server/routes.ts`, the public-HLS variant the README documents) responds
success without performing any step of the required stop / settle / start
sequence: its event trace is empty, so in particular it never calls
`stopAll`. -/
theorem c8_counterexample :
    stubRestartRoute.2.success = true ∧ stubRestartRoute.1 = [] ∧
    RouteEvent.stopAllCall ∉ stubRestartRoute.1 := by
  exact ⟨rfl, rfl, by simp [stubRestartRoute]⟩

/-- C8 amended: in the FFmpeg-backed serving variant, the restart-all
command (with the manager initialized) calls `stopAll`, awaits the fixed
2000ms settle period, then calls `startAll`, reporting success when the
sequence completes and a 500-status failure when either call throws (a
`stopAll` throw short-circuits before the wait). -/
theorem c8_restart_route :
    (restartRoute true (Except.ok ()) (Except.ok ()) =
      ([RouteEvent.stopAllCall, RouteEvent.waitMs 2000, RouteEvent.startAllCall],
       { status := 200, success := true })) ∧
    (∀ (e : String) (startR : Except String Unit),
      restartRoute true (Except.error e) startR =
        ([RouteEvent.stopAllCall], { status := 500, success := false })) ∧
    (∀ e : String,
      restartRoute true (Except.ok ()) (Except.error e) =
        ([RouteEvent.stopAllCall, RouteEvent.waitMs 2000, RouteEvent.startAllCall],
         { status := 500, success := false })) := by
  exact ⟨rfl, fun e startR => rfl, fun e => rfl⟩

/-- C1: one poll tick, for a registered non-reference stream with drift
`d = streamPosition - referencePosition`: if `|d| > 1.5` the stream is
seeked to the reference position and reported unsynced; else if `|d| > 0.5`
the playback rate is nudged to 0.98 when `d > 0` and 1.02 when `d < 0`,
a correction-window reset restoring rate 1.0 is scheduled, and the stream
is reported unsynced; else rate is set to 1.0 and the stream is reported
synced. The reported drift equals `d` in both correcting branches. -/
theorem c1_tick_classification (m : VideoSyncManager) (i : ℕ) (master v : Video)
    (hm : m.videos[m.masterIndex]? = some master)
    (hv : m.videos[i]? = some v) (hi : i ≠ m.masterIndex)
    (d : ℚ) (hd : d = v.currentTime - master.currentTime) :
    ∃ v2 s r, (m.sync).1.videos[i]? = some v2 ∧ (m.sync).2.1[i]? = some s ∧
      (m.sync).2.2[i]? = some r ∧
      (absQ d > MAJOR_DRIFT_THRESHOLD →
        v2.currentTime = master.currentTime ∧ s.isSynced = false ∧ s.drift = d) ∧
      (¬ absQ d > MAJOR_DRIFT_THRESHOLD → absQ d > MINOR_DRIFT_THRESHOLD →
        (d > 0 → v2.playbackRate = 98/100) ∧
        (d < 0 → v2.playbackRate = 102/100) ∧
        r = true ∧
        ((m.sync).1.applyRateReset i).videos[i]? =
          some { v2 with playbackRate := 1 } ∧
        s.isSynced = false ∧ s.drift = d) ∧
      (¬ absQ d > MINOR_DRIFT_THRESHOLD →
        v2.playbackRate = 1 ∧ s.isSynced = true) := by
  refine ⟨(syncStep m.masterIndex master.currentTime i v).1,
          (syncStep m.masterIndex master.currentTime i v).2.1,
          (syncStep m.masterIndex master.currentTime i v).2.2,
          ?_, ?_, ?_, ?_, ?_, ?_⟩
  · rw [sync_videos_getElem? m master hm i, hv]; rfl
  · rw [sync_states_getElem? m master hm i, hv]; rfl
  · rw [sync_resets_getElem? m master hm i, hv]; rfl
  · intro hmaj
    simp only [syncStep, if_neg hi, ← hd, gt_iff_lt, hmaj, if_pos]
    exact ⟨trivial, trivial, trivial⟩
  · intro hmaj hmin
    rw [gt_iff_lt, not_lt] at hmaj
    have hnmaj : ¬ MAJOR_DRIFT_THRESHOLD < absQ d := not_lt.mpr hmaj
    constructor
    · intro hdpos
      simp only [syncStep, if_neg hi, ← hd, gt_iff_lt, if_neg hnmaj,
        if_pos hmin, if_pos hdpos]
    constructor
    · intro hdneg
      have : ¬ d > 0 := by linarith
      simp only [syncStep, if_neg hi, ← hd, gt_iff_lt, if_neg hnmaj,
        if_pos hmin, if_neg this]
    refine ⟨?_, ?_, ?_, ?_⟩
    · simp only [syncStep, if_neg hi, ← hd, gt_iff_lt, if_neg hnmaj, if_pos hmin]
    · have hv2 : (m.sync).1.videos[i]? =
          some (syncStep m.masterIndex master.currentTime i v).1 := by
        rw [sync_videos_getElem? m master hm i, hv]; rfl
      unfold VideoSyncManager.applyRateReset
      rw [hv2]
      have hlen : i < (m.sync).1.videos.length := by
        have := List.getElem?_eq_some_iff.mp hv2
        exact this.1
      simp [List.getElem?_set_self, hlen]
    · simp only [syncStep, if_neg hi, ← hd, gt_iff_lt, if_neg hnmaj, if_pos hmin]
    · simp only [syncStep, if_neg hi, ← hd, gt_iff_lt, if_neg hnmaj, if_pos hmin]
  · intro hmin
    rw [gt_iff_lt, not_lt] at hmin
    have hnmin : ¬ MINOR_DRIFT_THRESHOLD < absQ d := not_lt.mpr hmin
    have hnmaj : ¬ MAJOR_DRIFT_THRESHOLD < absQ d := by
      rw [not_lt]
      calc absQ d ≤ MINOR_DRIFT_THRESHOLD := hmin
        _ ≤ MAJOR_DRIFT_THRESHOLD := by norm_num [MINOR_DRIFT_THRESHOLD, MAJOR_DRIFT_THRESHOLD]
    simp only [syncStep, if_neg hi, ← hd, gt_iff_lt, if_neg hnmaj, if_neg hnmin]
    exact ⟨trivial, trivial⟩

/-- C1 witness: a stream 2 seconds ahead of the reference. -/
theorem c1_tick_classification_witness :
    ∃ v2 s r, (mMajor.sync).1.videos[1]? = some v2 ∧
      (mMajor.sync).2.1[1]? = some s ∧ (mMajor.sync).2.2[1]? = some r ∧
      (absQ 2 > MAJOR_DRIFT_THRESHOLD →
        v2.currentTime = (vidAt 10 1).currentTime ∧ s.isSynced = false ∧
        s.drift = 2) ∧
      (¬ absQ 2 > MAJOR_DRIFT_THRESHOLD → absQ 2 > MINOR_DRIFT_THRESHOLD →
        ((2:ℚ) > 0 → v2.playbackRate = 98/100) ∧
        ((2:ℚ) < 0 → v2.playbackRate = 102/100) ∧
        r = true ∧
        ((mMajor.sync).1.applyRateReset 1).videos[1]? =
          some { v2 with playbackRate := 1 } ∧
        s.isSynced = false ∧ s.drift = 2) ∧
      (¬ absQ 2 > MINOR_DRIFT_THRESHOLD →
        v2.playbackRate = 1 ∧ s.isSynced = true) :=
  c1_tick_classification mMajor 1 (vidAt 10 1) (vidAt 12 2) rfl rfl
    (by decide) 2 (by norm_num [vidAt])

/-- C3: the reference stream's sample carries drift 0 and isSynced true in
every tick and in every `getSyncStates` snapshot; the tick leaves the
reference video untouched and schedules no rate reset for it, and
`forceSync` also leaves it untouched. -/
theorem c3_reference_invariant (m : VideoSyncManager) (master : Video)
    (hm : m.videos[m.masterIndex]? = some master) :
    ((m.sync).2.1[m.masterIndex]? =
      some { streamId := master.streamId, currentTime := master.currentTime,
             drift := 0, isSynced := true }) ∧
    ((m.sync).1.videos[m.masterIndex]? = some master) ∧
    ((m.sync).2.2[m.masterIndex]? = some false) ∧
    ((m.forceSync).1.videos[m.masterIndex]? = some master) ∧
    (m.getSyncStates[m.masterIndex]? =
      some { streamId := master.streamId, currentTime := master.currentTime,
             drift := 0, isSynced := true }) := by
  have hstep : syncStep m.masterIndex master.currentTime m.masterIndex master =
      (master, { streamId := master.streamId, currentTime := master.currentTime,
                 drift := 0, isSynced := true }, false) := by
    simp [syncStep]
  refine ⟨?_, ?_, ?_, ?_, ?_⟩
  · rw [sync_states_getElem? m master hm, hm]
    simp [hstep]
  · rw [sync_videos_getElem? m master hm, hm]
    simp [hstep]
  · rw [sync_resets_getElem? m master hm, hm]
    simp [hstep]
  · rw [forceSync_videos_getElem? m master hm, hm]
    simp [hstep]
  · rw [getSyncStates_getElem? m master hm, hm]
    have habs : absQ 0 < MINOR_DRIFT_THRESHOLD := by
      norm_num [absQ, MINOR_DRIFT_THRESHOLD]
    simp [habs]

/-- C3 witness: the two-video controller with the reference at index 0. -/
theorem c3_reference_invariant_witness :
    ((mMajor.sync).2.1[mMajor.masterIndex]? =
      some { streamId := (vidAt 10 1).streamId,
             currentTime := (vidAt 10 1).currentTime,
             drift := 0, isSynced := true }) ∧
    ((mMajor.sync).1.videos[mMajor.masterIndex]? = some (vidAt 10 1)) ∧
    ((mMajor.sync).2.2[mMajor.masterIndex]? = some false) ∧
    ((mMajor.forceSync).1.videos[mMajor.masterIndex]? = some (vidAt 10 1)) ∧
    (mMajor.getSyncStates[mMajor.masterIndex]? =
      some { streamId := (vidAt 10 1).streamId,
             currentTime := (vidAt 10 1).currentTime,
             drift := 0, isSynced := true }) :=
  c3_reference_invariant mMajor (vidAt 10 1) rfl

/-- C6: `forceSync` sets every non-reference video's position to the
reference's position and its rate to 1.0 unconditionally; every video's
paused state is exactly what it was before the call; and the immediate
evaluation pass it runs reports every stream synced. -/
theorem c6_forceSync_seek_preserves_pause (m : VideoSyncManager) (master : Video)
    (hm : m.videos[m.masterIndex]? = some master) :
    (∀ (i : ℕ) (v : Video), m.videos[i]? = some v → i ≠ m.masterIndex →
      (m.forceSync).1.videos[i]? =
        some { v with currentTime := master.currentTime, playbackRate := 1 }) ∧
    (∀ (i : ℕ) (v : Video), m.videos[i]? = some v →
      ∃ v2 : Video, (m.forceSync).1.videos[i]? = some v2 ∧
        v2.paused = v.paused) ∧
    (∀ (i : ℕ) (s : SyncState), (m.forceSync).2.1[i]? = some s →
      s.isSynced = true) := by
  have hnmaj : ¬ MAJOR_DRIFT_THRESHOLD < absQ 0 := by
    norm_num [absQ, MAJOR_DRIFT_THRESHOLD]
  have hnmin : ¬ MINOR_DRIFT_THRESHOLD < absQ 0 := by
    norm_num [absQ, MINOR_DRIFT_THRESHOLD]
  refine ⟨?_, ?_, ?_⟩
  · intro i v hv hi
    rw [forceSync_videos_getElem? m master hm i, hv]
    simp only [Option.map_some', if_neg hi, syncStep, sub_self]
    rw [if_neg hnmaj, if_neg hnmin]
  · intro i v hv
    by_cases hi : i = m.masterIndex
    · subst hi
      have hveq : v = master := Option.some_inj.mp (hv.symm.trans hm)
      refine ⟨master, ?_, by rw [hveq]⟩
      rw [forceSync_videos_getElem? m master hm, hv]
      simp [syncStep, hveq]
    · refine ⟨{ v with currentTime := master.currentTime, playbackRate := 1 },
        ?_, rfl⟩
      rw [forceSync_videos_getElem? m master hm i, hv]
      simp only [Option.map_some', if_neg hi, syncStep, sub_self]
      rw [if_neg hnmaj, if_neg hnmin]
  · intro i s hs
    rw [forceSync_states_getElem? m master hm i] at hs
    cases hv : m.videos[i]? with
    | none => rw [hv] at hs; simp at hs
    | some v =>
      rw [hv] at hs
      simp only [Option.map_some', Option.some.injEq] at hs
      by_cases hi : i = m.masterIndex
      · rw [if_pos hi] at hs
        rw [← hs]
        simp [syncStep, hi]
      · rw [if_neg hi] at hs
        rw [← hs]
        simp only [syncStep, if_neg hi, sub_self]
        rw [if_neg hnmaj, if_neg hnmin]

/-- C6 witness: the controller with a 2s-ahead second stream. -/
theorem c6_forceSync_seek_preserves_pause_witness :
    ((mMajor.forceSync).1.videos[1]? =
      some { vidAt 12 2 with currentTime := (vidAt 10 1).currentTime, playbackRate := 1 }) ∧
    (∃ v2, (mMajor.forceSync).1.videos[1]? = some v2 ∧
      v2.paused = (vidAt 12 2).paused) :=
  ⟨(c6_forceSync_seek_preserves_pause mMajor (vidAt 10 1) rfl).1 1
      (vidAt 12 2) rfl (by decide),
   (c6_forceSync_seek_preserves_pause mMajor (vidAt 10 1) rfl).2.1 1
      (vidAt 12 2) rfl⟩

/-- C7: `playAll` settles successfully whatever the individual outcomes —
every rejection is swallowed — and the result for each registered source is
exactly its own `play()` attempt, unaffected by the other sources; a source
whose `play()` resolves ends up playing. -/
theorem c7_playAll_isolated (m : VideoSyncManager) :
    ((m.playAll).2 = Except.ok ()) ∧
    (∀ (i : ℕ) (v : Video), m.videos[i]? = some v →
      (m.playAll).1.videos[i]? = some (v.play).1 ∧
      (v.playSucceeds = true → ((v.play).1).paused = false)) := by
  constructor
  · unfold VideoSyncManager.playAll
    apply promiseAll_ok_of_all_ok
    intro r hr
    simp only [List.map_map, List.mem_map] at hr
    obtain ⟨v, hv, rfl⟩ := hr
    rfl
  · intro i v hv
    constructor
    · unfold VideoSyncManager.playAll
      simp only [List.map_map]
      rw [List.getElem?_map, hv]
      rfl
    · intro hps
      simp [Video.play, hps]

/-- C7 witness: two sources, the second of which rejects `play()`; the call
settles, the first source is playing, and the second is exactly its own
(unchanged) rejected state. -/
theorem c7_playAll_isolated_witness :
    ((mMixed.playAll).2 = Except.ok ()) ∧
    ((mMixed.playAll).1.videos[0]? = some ((vidAt 10 1).play).1 ∧
      ((vidAt 10 1).playSucceeds = true → (((vidAt 10 1).play).1).paused = false)) ∧
    ((mMixed.playAll).1.videos[1]? = some ((vidRejecting 10 2).play).1) :=
  ⟨(c7_playAll_isolated mMixed).1,
   (c7_playAll_isolated mMixed).2 0 (vidAt 10 1) rfl,
   ((c7_playAll_isolated mMixed).2 1 (vidRejecting 10 2) rfl).1⟩

/-- C10: at `|drift|` exactly equal to the minor threshold, the tick
classifies the non-reference stream as synced (strict `>`): rate set to 1.0,
no seek; while `getSyncStates` on the same state reports it unsynced
(strict `<`); away from that boundary value the two paths agree. -/
theorem c10_threshold_boundary (m : VideoSyncManager) (i : ℕ) (master v : Video)
    (hm : m.videos[m.masterIndex]? = some master)
    (hv : m.videos[i]? = some v) (hi : i ≠ m.masterIndex) :
    ∃ s g v2, (m.sync).2.1[i]? = some s ∧ m.getSyncStates[i]? = some g ∧
      (m.sync).1.videos[i]? = some v2 ∧
      (absQ (v.currentTime - master.currentTime) = MINOR_DRIFT_THRESHOLD →
        s.isSynced = true ∧ v2 = { v with playbackRate := 1 } ∧
        g.isSynced = false) ∧
      (absQ (v.currentTime - master.currentTime) ≠ MINOR_DRIFT_THRESHOLD →
        s.isSynced = g.isSynced) := by
  refine ⟨(syncStep m.masterIndex master.currentTime i v).2.1,
    { streamId := v.streamId, currentTime := v.currentTime,
      drift := v.currentTime - master.currentTime,
      isSynced := decide (absQ (v.currentTime - master.currentTime) <
        MINOR_DRIFT_THRESHOLD) },
    (syncStep m.masterIndex master.currentTime i v).1, ?_, ?_, ?_, ?_, ?_⟩
  · rw [sync_states_getElem? m master hm i, hv]; rfl
  · rw [getSyncStates_getElem? m master hm i, hv]
    simp [if_neg hi]
  · rw [sync_videos_getElem? m master hm i, hv]; rfl
  · intro hb
    have hminmaj : MINOR_DRIFT_THRESHOLD < MAJOR_DRIFT_THRESHOLD := by
      norm_num [MINOR_DRIFT_THRESHOLD, MAJOR_DRIFT_THRESHOLD]
    have hnmaj : ¬ absQ (v.currentTime - master.currentTime) > MAJOR_DRIFT_THRESHOLD := by
      rw [hb]; exact not_lt.mpr (le_of_lt hminmaj)
    have hnmin : ¬ absQ (v.currentTime - master.currentTime) > MINOR_DRIFT_THRESHOLD := by
      rw [hb]; exact lt_irrefl _
    refine ⟨?_, ?_, ?_⟩
    · unfold syncStep
      rw [if_neg hi]
      simp only []
      rw [if_neg (by simpa using hnmaj), if_neg (by simpa using hnmin)]
    · unfold syncStep
      rw [if_neg hi]
      simp only []
      rw [if_neg (by simpa using hnmaj), if_neg (by simpa using hnmin)]
    · simp only [decide_eq_false_iff_not, not_lt, hb, le_refl]
  · intro hb
    by_cases h1 : absQ (v.currentTime - master.currentTime) > MAJOR_DRIFT_THRESHOLD
    · have hglt : ¬ absQ (v.currentTime - master.currentTime) < MINOR_DRIFT_THRESHOLD := by
        rw [not_lt]
        have : MINOR_DRIFT_THRESHOLD ≤ MAJOR_DRIFT_THRESHOLD := by
          norm_num [MINOR_DRIFT_THRESHOLD, MAJOR_DRIFT_THRESHOLD]
        linarith [gt_iff_lt.mp h1]
      unfold syncStep
      rw [if_neg hi]
      simp only []
      rw [if_pos (by simpa using h1)]
      simp [hglt]
    · by_cases h2 : absQ (v.currentTime - master.currentTime) > MINOR_DRIFT_THRESHOLD
      · have hglt : ¬ absQ (v.currentTime - master.currentTime) < MINOR_DRIFT_THRESHOLD := by
          rw [not_lt]
          linarith [gt_iff_lt.mp h2]
        unfold syncStep
        rw [if_neg hi]
        simp only []
        rw [if_neg (by simpa using h1), if_pos (by simpa using h2)]
        simp [hglt]
      · have hglt : absQ (v.currentTime - master.currentTime) < MINOR_DRIFT_THRESHOLD := by
          rw [gt_iff_lt, not_lt] at h2
          exact lt_of_le_of_ne h2 hb
        unfold syncStep
        rw [if_neg hi]
        simp only []
        rw [if_neg (by simpa using h1), if_neg (by simpa using h2)]
        simp [hglt]

/-- C10 witness: reference at 10s, stream at 10.5s — drift exactly 0.5s. -/
theorem c10_threshold_boundary_witness :
    ∃ s g v2, (mBoundary.sync).2.1[1]? = some s ∧
      mBoundary.getSyncStates[1]? = some g ∧
      (mBoundary.sync).1.videos[1]? = some v2 ∧
      (absQ ((vidAt (21/2) 2).currentTime - (vidAt 10 1).currentTime) =
          MINOR_DRIFT_THRESHOLD →
        s.isSynced = true ∧ v2 = { vidAt (21/2) 2 with playbackRate := 1 } ∧
        g.isSynced = false) ∧
      (absQ ((vidAt (21/2) 2).currentTime - (vidAt 10 1).currentTime) ≠
          MINOR_DRIFT_THRESHOLD →
        s.isSynced = g.isSynced) :=
  c10_threshold_boundary mBoundary 1 (vidAt 10 1) (vidAt (21/2) 2) rfl rfl
    (by decide)

end VideoStream
